import Mathlib

/-!
Verification of the power_capping repository: a shallow embedding of the
agent, BMC drivers, collector and runner, with theorems settling the
specification claims about them.

Python strings are modelled as Lean `String`; the Python string methods
used by the sources (`split`, `strip`, `splitlines`, `lower`, `replace`,
`int(...)`) are embedded as structural recursions over the character list
so that concrete inputs evaluate inside the kernel.  Python `float`
arithmetic is modelled over `ℚ`.  Python dicts are association lists where
the LAST insertion of a key wins, matching dict-comprehension semantics.
-/

namespace PowerCapping

/-! ## Python string and dict primitives -/

/-- `str.split(sep)` for a one-character separator: split on EVERY
occurrence of `sep` (Python splits on each occurrence, not just the
first). -/
def splitOnChar (sep : Char) : List Char → List (List Char)
  | [] => [[]]
  | c :: rest =>
    match splitOnChar sep rest with
    | [] => [[]]
    | group :: groups =>
      if c = sep then [] :: group :: groups else (c :: group) :: groups

/-- `line.split(sep)` on a `String`. -/
def pySplit (sep : Char) (s : String) : List String :=
  (splitOnChar sep s.toList).map (fun cs => String.mk cs)

/-- `str.strip()`: remove leading and trailing whitespace. -/
def trimChars (cs : List Char) : List Char :=
  ((cs.dropWhile Char.isWhitespace).reverse.dropWhile Char.isWhitespace).reverse

/-- `str.strip()` on a `String`. -/
def pyStrip (s : String) : String := String.mk (trimChars s.toList)

/-- `str.strip(ch)` for one character: remove every leading and trailing
occurrence of `ch`. -/
def pyStripChar (ch : Char) (s : String) : String :=
  String.mk (((s.toList.dropWhile (· = ch)).reverse.dropWhile (· = ch)).reverse)

/-- `str.splitlines()` restricted to LF: a trailing newline does not
produce a final empty line, and the empty string has no lines. -/
def pySplitlines (s : String) : List String :=
  if s = "" then []
  else
    let parts := pySplit '\n' s
    if parts.getLast? = some "" then parts.dropLast else parts

/-- `str.lower()` (ASCII). -/
def pyLower (s : String) : String := String.mk (s.toList.map Char.toLower)

/-- `str.replace(old, new)` for a one-character pattern. -/
def pyReplaceChar (old new : Char) (s : String) : String :=
  String.mk (s.toList.map (fun c => if c = old then new else c))

/-- The one multi-character replacement the sources perform:
`key.replace('(s)', 's')`, scanning left to right. -/
def replacePluralS : List Char → List Char
  | '(' :: 's' :: ')' :: rest => 's' :: replacePluralS rest
  | c :: rest => c :: replacePluralS rest
  | [] => []

/-- Decimal digit accumulator for the integer literal parse. -/
def digitsVal (acc : Nat) : List Char → Option Nat
  | [] => some acc
  | c :: rest => if c.isDigit then digitsVal (acc * 10 + (c.toNat - 48)) rest else none

/-- Python `int(s)` for plain decimal literals: surrounding whitespace and
an optional sign are accepted; anything else raises `ValueError`, which the
embedding reports as `none`. -/
def pyInt (s : String) : Option Int :=
  match trimChars s.toList with
  | '-' :: c :: rest => (digitsVal 0 (c :: rest)).map (fun n => -(n : Int))
  | '+' :: c :: rest => (digitsVal 0 (c :: rest)).map (fun n => (n : Int))
  | c :: rest => (digitsVal 0 (c :: rest)).map (fun n => (n : Int))
  | [] => none

/-- Python dict lookup for a dict built by inserting the pairs in list
order: the LAST pair carrying the key wins. -/
def dictGet {β : Type} (pairs : List (String × β)) (k : String) : Option β :=
  pairs.reverse.lookup k

/-- Python `dict.get(k, default)`. -/
def dictGetD {β : Type} (pairs : List (String × β)) (k : String) (d : β) : β :=
  (dictGet pairs k).getD d

/-! ## Agent: /rapl_power handler (src/agent/src/agent.py, rapl_power) -/

/-- One package as seen by one /rapl_power request: the package name and
wrap ceiling recorded at agent start, the two energy_uj readings and the
two monotonic_ns timestamps taken by the handler. -/
structure PkgSample where
  name : String
  max_energy : Int
  start_energy : Int
  end_energy : Int
  start_timestamp : Int
  end_timestamp : Int
deriving Repr, DecidableEq

/-- energy_delta of rapl_power: end - start unless the counter wrapped,
in which case max_energy - start + end (a single wrap is assumed). -/
def energy_delta (p : PkgSample) : Int :=
  if p.end_energy > p.start_energy then p.end_energy - p.start_energy
  else p.max_energy - p.start_energy + p.end_energy

/-- package_power_watts of rapl_power: energy_delta / time_delta_ns * 1000,
with Python float division modelled over the rationals. -/
def package_power_watts (p : PkgSample) : ℚ :=
  (energy_delta p : ℚ) / ((p.end_timestamp - p.start_timestamp : Int) : ℚ) * 1000

/-- The body of the /rapl_power response: one (package name, watts) entry
per discovered package. -/
def rapl_power (pkgs : List PkgSample) : List (String × ℚ) :=
  pkgs.map (fun p => (p.name, package_power_watts p))

/-! ## Agent: /firestarter handler and launcher (src/agent/src/agent.py) -/

/-- The handler's observable outcome for one POST /firestarter: HTTP
status, response body (the error object, when any), how many
load-generator jobs were spawned and how many completed handles were
joined, and the firestarter_thread field afterwards.  The thread handle is
`none` (no thread yet) or `some alive` where `alive` is what `is_alive()`
returns. -/
structure FirestarterOutcome where
  status : Nat
  body : Option String
  spawned : Nat
  joined : Nat
  thread_after : Option Bool
deriving Repr, DecidableEq

/-- The /firestarter route handler.  If a previous thread exists and is
alive, answer 409 Conflict with the error object and change nothing;
otherwise join the completed handle if there is one, start exactly one new
thread (alive on return, since the handler does not wait for it) and
answer 202 Accepted with a null body. -/
def firestarter (firestarter_thread : Option Bool) : FirestarterOutcome :=
  if firestarter_thread = some true then
    { status := 409
      body := some "Firestarter already running"
      spawned := 0
      joined := 0
      thread_after := firestarter_thread }
  else
    { status := 202
      body := none
      spawned := 1
      joined := if firestarter_thread = none then 0 else 1
      thread_after := some true }

/-- What launch_firestarter hands to subprocess.run: the command line and
whether stdout is redirected to /dev/null. -/
structure LaunchedProcess where
  command_line : String
  stdout_devnull : Bool
deriving Repr, DecidableEq

/-- launch_firestarter: read runtime_secs, pct_load and n_threads from the
request body with defaults 30, 100 and 0, build the command line and run
it with stdout discarded. -/
def launch_firestarter (firestarter_path : String) (args : List (String × Int)) :
    LaunchedProcess :=
  let runtime_secs := dictGetD args "runtime_secs" 30
  let pct_load := dictGetD args "pct_load" 100
  let n_threads := dictGetD args "n_threads" 0
  { command_line :=
      firestarter_path ++ " --quiet --timeout " ++ toString runtime_secs ++
        " --load " ++ toString pct_load ++ " --threads " ++ toString n_threads
    stdout_devnull := true }

/-! ## IPMI BMC: output parsing (src/BMC/src/ipmi_bmc.py, run_ipmi_command) -/

/-- One line of ipmitool stdout, transformed as in the bmc_dict
comprehension: `line.split(':')` (every colon), kept only when exactly two
parts result, both stripped. -/
def parse_ipmi_line (line : String) : Option (String × String) :=
  match pySplit ':' line with
  | [a, b] => some (pyStrip a, pyStrip b)
  | _ => none

/-- The ipmi_fields dict of run_ipmi_command, as its insertion-ordered
pair list. -/
def ipmi_fields (stdout : String) : List (String × String) :=
  (pySplitlines stdout).filterMap parse_ipmi_line

/-- Lookup in the bmc_dict built by run_ipmi_command (dict semantics:
last occurrence of a key wins). -/
def bmc_dict (stdout : String) (k : String) : Option String :=
  dictGet (ipmi_fields stdout) k

/-! ## Redfish BMC: LimitTrigger PATCH (src/BMC/src/redfish_bmc.py, do_set_capping) -/

/-- aiohttp ClientResponse.ok: true exactly when the status is below 400
(3xx responses count as ok). -/
def response_ok (status : Nat) : Bool := status < 400

/-- A Python value as it appears in the LimitTrigger PATCH body: the
braces in the source line `cap_dict = ...{operation}...` are a Python SET
literal holding the operation string, not the string itself. -/
inductive PyVal
  | str (v : String)
  | set (elems : List String)
deriving Repr, DecidableEq

/-- json.dumps on one value: a string serializes; a set is not JSON
serializable and raises TypeError. -/
def json_dumps_val : PyVal → Except String Unit
  | PyVal.str _ => Except.ok ()
  | PyVal.set _ => Except.error "TypeError: Object of type set is not JSON serializable"

/-- json.dumps on a dict of such values (only serializability is
modelled, not the output text): the first unserializable value raises. -/
def json_dumps : List (String × PyVal) → Except String Unit
  | [] => Except.ok ()
  | kv :: rest =>
    match json_dumps_val kv.2 with
    | Except.ok _ => json_dumps rest
    | Except.error e => Except.error e

/-- Python `pat in s` substring test on strings, for the source's
`assert operation in "Activate Deactivate"`. -/
def containsSub (pat : List Char) : List Char → Bool
  | [] => pat.isEmpty
  | c :: rest => pat.isPrefixOf (c :: rest) || containsSub pat rest

/-- do_set_capping: assert the operation is a substring of
"Activate Deactivate"; build cap_dict with the SET value {operation};
eagerly evaluate json.dumps(cap_dict) inside the debug f-string — this
raises TypeError on the set before any HTTP request is issued (and
aiohttp would fail to serialize the same body).  Only if the dumps
returned would the PATCH be sent and its status inspected: r.ok
(status < 400) falls through normally, a 404 is ignored (endpoint not
implemented) and any other status raises RuntimeError. -/
def do_set_capping (operation : String) (status : Nat) : Except String Unit :=
  if containsSub operation.toList "Activate Deactivate".toList = false then
    Except.error "AssertionError"
  else
    match json_dumps [("PowerLimitTrigger", PyVal.set [operation])] with
    | Except.error e => Except.error e
    | Except.ok _ =>
      if response_ok status then Except.ok ()
      else if status = 404 then Except.ok ()
      else Except.error "Failed to set cap level"

/-- activate_capping delegates to do_set_capping with operation Activate. -/
def activate_capping (status : Nat) : Except String Unit :=
  do_set_capping "Activate" status

/-- deactivate_capping delegates to do_set_capping with operation
Deactivate. -/
def deactivate_capping (status : Nat) : Except String Unit :=
  do_set_capping "Deactivate" status

/-! ## Collector (src/collector/src/Collector.py) -/

/-- The result of sample_bmc: the power reading and the possibly-null cap
level. -/
structure BmcReading where
  bmc_power : Int
  bmc_cap_level : Option Int
deriving Repr, DecidableEq

/-- A row of the bmc table. -/
structure BmcRow where
  timestamp : ℚ
  power : Int
  cap_level : Option Int
deriving Repr, DecidableEq

/-- A row of the rapl table. -/
structure RaplRow where
  timestamp : ℚ
  package : String
  power : ℚ
deriving Repr, DecidableEq

/-- What one loop iteration observes from outside: the wall clock read at
the loop head, the BMC reading, and the agent's /rapl_power HTTP status
and JSON body. -/
structure TickEnv where
  now : ℚ
  bmc : BmcReading
  agent_status : Nat
  agent_body : List (String × ℚ)
deriving Repr, DecidableEq

/-- sample_agent: on a 2xx status return the parsed body; otherwise log
the failure and return None. -/
def sample_agent (status : Nat) (body : List (String × ℚ)) :
    Option (List (String × ℚ)) :=
  if status < 300 then some body else none

/-- save_bmc_sample: one bmc row stamped with the tick timestamp. -/
def save_bmc_sample (timestamp : ℚ) (bmc_sample : BmcReading) : BmcRow :=
  { timestamp := timestamp, power := bmc_sample.bmc_power
    cap_level := bmc_sample.bmc_cap_level }

/-- save_agent_sample: one rapl row per package.  The source iterates
`agent_sample.items()`; when sample_agent returned None this raises
AttributeError (None has no attribute items), modelled as the error
branch. -/
def save_agent_sample (timestamp : ℚ) (agent_sample : Option (List (String × ℚ))) :
    Except String (List RaplRow) :=
  match agent_sample with
  | some m =>
      Except.ok (m.map (fun pw => { timestamp := timestamp, package := pw.1, power := pw.2 }))
  | none => Except.error "AttributeError: NoneType object has no attribute items"

/-- save_sample: the bmc insert followed by the rapl inserts, one
transaction. -/
def save_sample (timestamp : ℚ) (bmc_sample : BmcReading)
    (agent_sample : Option (List (String × ℚ))) :
    Except String (BmcRow × List RaplRow) :=
  match save_agent_sample timestamp agent_sample with
  | Except.ok rapl_rows => Except.ok (save_bmc_sample timestamp bmc_sample, rapl_rows)
  | Except.error e => Except.error e

/-- The collector state across iterations: the scheduled next tick and the
rows committed so far. -/
structure CollectState where
  next_collect_timestamp : ℚ
  bmc_rows : List BmcRow
  rapl_rows : List RaplRow
deriving Repr, DecidableEq

/-- One iteration of the start_collect loop body: read `now`; sleep for
`next_collect_timestamp - now` when that is positive; rebase
`next_collect_timestamp` to `now + 1/freq`; take the BMC and agent
samples; commit the rows stamped `now`.  Returns the new state and the
time actually slept; an exception from the body propagates. -/
def collect_iteration (freq : ℚ) (st : CollectState) (env : TickEnv) :
    Except String (CollectState × ℚ) :=
  let timestamp := env.now
  let slept :=
    if st.next_collect_timestamp - timestamp > 0
    then st.next_collect_timestamp - timestamp else 0
  match save_sample timestamp env.bmc (sample_agent env.agent_status env.agent_body) with
  | Except.ok rows =>
      Except.ok
        ({ next_collect_timestamp := timestamp + 1 / freq
           bmc_rows := st.bmc_rows ++ [rows.1]
           rapl_rows := st.rapl_rows ++ rows.2 }, slept)
  | Except.error e => Except.error e

/-- The start_collect loop: each list element is the do_collect flag as
read at the loop head (negated: `stop`) together with that iteration's
environment.  The loop exits normally when the flag says stop, and an
uncaught exception from the body ends it early. -/
def start_collect (freq : ℚ) (st : CollectState) :
    List (Bool × TickEnv) → Except String CollectState
  | [] => Except.ok st
  | (stop, env) :: rest =>
    if stop then Except.ok st
    else
      match collect_iteration freq st env with
      | Except.ok r => start_collect freq r.1 rest
      | Except.error e => Except.error e

/-! ## Runner (src/runner/src/Runner.py) -/

/-- A capping_commands row: (timestamp in ms, cap_level). -/
abbrev CapRow := Int × Int

/-- log_cap_level: insert a single timestamped row into capping_commands.
The source method executes one INSERT with values (datetime.now(UTC),
cap_level); it keeps no memory of a previous cap and writes no other row. -/
def log_cap_level (rows : List CapRow) (now cap_level : Int) : List CapRow :=
  rows ++ [(now, cap_level)]

/-- Replaying a sequence of (now, cap_level) calls through log_cap_level
starting from an empty table. -/
def log_cap_calls (calls : List CapRow) : List CapRow :=
  calls.foldl (fun rows tc => log_cap_level rows tc.1 tc.2) []

/-- The cap levels logged and applied by the pause-between loop of
run_test: starting from cap_from, each of the n_steps iterations first
decrements by cap_delta and then logs and applies the new level. -/
def pause_mode_loop (cap_level cap_delta : Int) : Nat → List Int
  | 0 => []
  | n + 1 => (cap_level - cap_delta) :: pause_mode_loop (cap_level - cap_delta) cap_delta n

/-- The cap levels logged and applied by the continuous-load loop of
run_test: each of the n_steps iterations logs and applies the current
level and then decrements by cap_delta. -/
def continuous_loop (cap_level cap_delta : Int) : Nat → List Int
  | 0 => []
  | n + 1 => cap_level :: continuous_loop (cap_level - cap_delta) cap_delta n

/-- The full sequence of cap levels that run_test logs (and applies via
set_cap_level), in order.  cap_delta is Python floor division
`(cap_from - cap_to) // n_steps`, modelled by Int.fdiv.  In pause-between
mode the sequence opens with cap_from; in continuous-load mode it opens
with the uncapped_power pseudo-cap. -/
def run_test_caps (pause_load_between_cap_settings : Bool)
    (uncapped_power cap_from cap_to : Int) (n_steps : Nat) : List Int :=
  let cap_delta := Int.fdiv (cap_from - cap_to) (n_steps : Int)
  if pause_load_between_cap_settings then
    cap_from :: pause_mode_loop cap_from cap_delta n_steps
  else
    uncapped_power :: continuous_loop cap_from cap_delta n_steps

/-! ## Agent system info (src/agent/src/system_info.py) -/

/-- A system_info value: Python str or int. -/
inductive SIValue
  | s (v : String)
  | i (v : Int)
deriving Repr, DecidableEq

/-- Python truthiness of a system_info value: a string is truthy when
non-empty, an int when non-zero. -/
def truthy : SIValue → Bool
  | SIValue.s v => v ≠ ""
  | SIValue.i v => v ≠ 0

/-- The DMI attribute files hw_info reads. -/
def dmi_files : List String :=
  ["bios_date", "bios_vendor", "bios_version", "board_name", "board_vendor",
   "board_version", "sys_vendor"]

/-- hw_info: for each DMI path that exists, one entry mapping the file
name to its stripped contents; a missing file contributes nothing.  The
filesystem is modelled as a partial map from file name to contents. -/
def hw_info (fs : String → Option String) : List (String × SIValue) :=
  dmi_files.filterMap (fun f => (fs f).map (fun c => (f, SIValue.s (pyStrip c))))

/-- The lscpu fields cpu_info selects. -/
def cpu_keys : List String :=
  ["Architecture", "CPU(s)", "Thread(s) per core", "Core(s) per socket",
   "Socket(s)", "Vendor ID", "Model name", "CPU MHz", "CPU max MHz", "CPU min MHz"]

/-- The transformed keys cpu_info coerces to int. -/
def integer_keys : List String :=
  ["cpus", "threads_per_core", "cores_per_socket", "sockets", "cpu_mhz",
   "cpu_min_mhz", "cpu_max_mhz"]

/-- to_int of cpu_info: `int(s)` or 0 on ValueError. -/
def to_int (s : String) : Int := (pyInt s).getD 0

/-- The raw line dict of cpu_info: each line is stripped and split on
every ':'; `d[0]` and `d[1]` are the first two parts (extra parts are
dropped); a line with no ':' raises IndexError on `d[1]`. -/
def lscpu_pairs : List String → Except String (List (String × String))
  | [] => Except.ok []
  | line :: rest =>
    match pySplit ':' (pyStrip line) with
    | a :: b :: _ =>
        (lscpu_pairs rest).map (fun ps => (a, b) :: ps)
    | _ => Except.error "IndexError: list index out of range"

/-- The key transformation of cpu_info:
`k.lower().replace(' ', '_').replace('(s)', 's')`. -/
def cpu_key_transform (k : String) : String :=
  String.mk (replacePluralS (pyReplaceChar ' ' '_' (pyLower k)).toList)

/-- cpu_info: build the line dict from the lscpu stdout, select cpu_keys
with default '' and strip, transform the keys, then coerce the
integer_keys entries with to_int (an unparsable value becomes 0). -/
def cpu_info (stdout : String) : Except String (List (String × SIValue)) :=
  (lscpu_pairs (pySplitlines stdout)).map (fun raw =>
    cpu_keys.map (fun k =>
      let key := cpu_key_transform k
      let value := pyStrip (dictGetD raw k "")
      (key, if integer_keys.contains key then SIValue.i (to_int value) else SIValue.s value)))

/-- hostname: the stripped stdout of `hostname -s`. -/
def hostname (stdout : String) : List (String × SIValue) :=
  [("hostname", SIValue.s (pyStrip stdout))]

/-- os_name: parse /etc/os-release as KEY=VALUE lines (lines without
exactly two parts dropped), prefer a truthy PRETTY_NAME over
`NAME VERSION`, and strip surrounding double quotes. -/
def os_name (content : String) : List (String × SIValue) :=
  let os_data := (pySplitlines content).filterMap (fun e =>
    match pySplit '=' (pyStrip e) with
    | [a, b] => some (a, b)
    | _ => none)
  let fallback := dictGetD os_data "NAME" "" ++ " " ++ dictGetD os_data "VERSION" ""
  let name :=
    match dictGet os_data "PRETTY_NAME" with
    | some p => if p ≠ "" then p else fallback
    | none => fallback
  [("os_name", SIValue.s (pyStripChar '"' name))]

/-- Python dict union `a | b` on insertion-ordered pair lists with
internally distinct keys: the keys of `a` in order (values overridden by
`b` where `b` also has the key), then the keys of `b` not in `a`. -/
def dict_union (a b : List (String × SIValue)) : List (String × SIValue) :=
  a.map (fun kv => (kv.1, dictGetD b kv.1 kv.2)) ++
    b.filter (fun kv => a.all (fun kv2 => kv2.1 ≠ kv.1))

/-- system_info: aggregate hw_info, cpu_info, hostname and os_name, then
keep only the truthy entries (the compact_info comprehension guarded by
`if v`). -/
def system_info (fs : String → Option String)
    (lscpu_stdout hostname_stdout os_release : String) :
    Except String (List (String × SIValue)) :=
  (cpu_info lscpu_stdout).map (fun cpu =>
    let all_info :=
      dict_union (dict_union (dict_union (hw_info fs) cpu) (hostname hostname_stdout))
        (os_name os_release)
    all_info.filter (fun kv => truthy kv.2))

/-! ## Concrete instances used to exercise the definitions -/

/-- A package sample whose counter wrapped: end below start, ceiling 1000,
250 ns elapsed. -/
def pkgW : PkgSample :=
  { name := "package-0", max_energy := 1000, start_energy := 900
    end_energy := 100, start_timestamp := 0, end_timestamp := 250 }

/-- A collector state at wall time 10 with an empty store. -/
def stW : CollectState := { next_collect_timestamp := 10, bmc_rows := [], rapl_rows := [] }

/-- A healthy tick at wall time 10. -/
def envW : TickEnv :=
  { now := 10, bmc := { bmc_power := 300, bmc_cap_level := some 500 }
    agent_status := 200, agent_body := [("pkg0", 42)] }

/-- The state produced by running one collector iteration from stW on
envW, written with the arithmetic unevaluated. -/
def stW1 : CollectState :=
  { next_collect_timestamp := (10 : ℚ) + 1 / 1
    bmc_rows := [{ timestamp := 10, power := 300, cap_level := some 500 }]
    rapl_rows := [{ timestamp := 10, package := "pkg0", power := 42 }] }

/-- The time slept by that iteration, written with the arithmetic
unevaluated. -/
def sleptW : ℚ := if (10 : ℚ) - 10 > 0 then (10 : ℚ) - 10 else 0

/-- A tick on which the agent answers /rapl_power with HTTP 500. -/
def env500 : TickEnv :=
  { now := 10, bmc := { bmc_power := 300, bmc_cap_level := some 500 }
    agent_status := 500, agent_body := [] }

/-- A healthy tick following env500. -/
def envOK : TickEnv :=
  { now := 11, bmc := { bmc_power := 300, bmc_cap_level := none }
    agent_status := 200, agent_body := [("pkg0", 42)] }

/-- An lscpu stdout in which every CPU MHz field carries a decimal point,
as lscpu prints them, so that int() fails on each. -/
def lscpuEx : String :=
  "Architecture: x86_64\nCPU(s): 8\nThread(s) per core: 2\nCore(s) per socket: 4\nSocket(s): 1\nVendor ID: GenuineIntel\nModel name: Xeon\nCPU MHz: 2400.000\nCPU max MHz: 3500.0000\nCPU min MHz: 800.0000\n"

/-- A DMI filesystem holding only bios_date: every other attribute file is
missing. -/
def fsEx : String → Option String := fun f =>
  if f = "bios_date" then some "01/01/2024\n" else none

/-- An /etc/os-release with a quoted PRETTY_NAME. -/
def osEx : String := "PRETTY_NAME=\"Foo OS 1\"\n"

/-! ## Theorems -/

/-- Claim C1: for every package with wrap ceiling M, first energy reading
s, second energy reading e and elapsed monotonic time dt_ns > 0, the
/rapl_power handler reports for that package the power
((e − s) if e > s else (M − s + e)) / dt · 1000. -/
theorem rapl_power_wrap_formula (pkgs : List PkgSample) (idx : Nat)
    (h : idx < pkgs.length)
    (hdt : 0 < (pkgs.get ⟨idx, h⟩).end_timestamp - (pkgs.get ⟨idx, h⟩).start_timestamp) :
    (rapl_power pkgs).get ⟨idx, by simpa [rapl_power] using h⟩ =
      ((pkgs.get ⟨idx, h⟩).name,
        (((if (pkgs.get ⟨idx, h⟩).end_energy > (pkgs.get ⟨idx, h⟩).start_energy
            then (pkgs.get ⟨idx, h⟩).end_energy - (pkgs.get ⟨idx, h⟩).start_energy
            else (pkgs.get ⟨idx, h⟩).max_energy - (pkgs.get ⟨idx, h⟩).start_energy
                  + (pkgs.get ⟨idx, h⟩).end_energy) : Int) : ℚ) /
          (((pkgs.get ⟨idx, h⟩).end_timestamp - (pkgs.get ⟨idx, h⟩).start_timestamp : Int) : ℚ)
          * 1000) := by
  simp [rapl_power, package_power_watts, energy_delta]

/-- Witness for C1: the wrapped package pkgW (M = 1000, s = 900, e = 100,
dt = 250 ns) is reported at (1000 − 900 + 100) / 250 · 1000 = 800 W. -/
theorem rapl_power_wrap_formula_witness :
    0 < pkgW.end_timestamp - pkgW.start_timestamp ∧
      (rapl_power [pkgW]).get ⟨0, by simp [rapl_power]⟩ = ("package-0", (800 : ℚ)) := by
  refine ⟨by decide, ?_⟩
  have h := rapl_power_wrap_formula [pkgW] 0 (by decide) (by decide)
  simp only [List.get] at h ⊢
  rw [h]
  norm_num [pkgW]

/-- Counterexample to claim C2: two runner cap changes, 1000 at t = 0 ms
and 800 at t = 5000 ms, leave capping_commands without any shadow row
(5000 − 1, 1000): log_cap_level inserts only the (now, new_cap) rows. -/
theorem log_cap_level_no_shadow_row_cex :
    log_cap_calls [(0, 1000), (5000, 800)] = [(0, 1000), (5000, 800)] ∧
    (1000 : Int) ≠ 800 ∧
    ¬ ((5000 - 1, 1000) ∈ log_cap_calls [(0, 1000), (5000, 800)]) := by
  refine ⟨rfl, by decide, by decide⟩

/-- Claim C2 as amended: log_cap_level inserts exactly the single row
(now, new_cap) per call — it remembers no previous cap and emits no shadow
row 1 ms earlier — so replaying any call sequence produces exactly the
calls themselves and nothing else. -/
theorem log_cap_level_single_row :
    (∀ rows now cap_level, log_cap_level rows now cap_level = rows ++ [(now, cap_level)]) ∧
    (∀ calls : List CapRow, log_cap_calls calls = calls) := by
  constructor
  · intro rows now cap_level; rfl
  · have key : ∀ (calls acc : List CapRow),
        calls.foldl (fun rows tc => log_cap_level rows tc.1 tc.2) acc = acc ++ calls := by
      intro calls
      induction calls with
      | nil => intro acc; simp
      | cons c rest ih =>
        intro acc
        rw [List.foldl_cons, ih (log_cap_level acc c.1 c.2)]
        simp [log_cap_level]
    intro calls
    simpa using key calls []

/-- Claim C7 (code bug, evaluated at the failing input): every
activate_capping and deactivate_capping call raises TypeError — the PATCH
body carries the Python set {operation} and json.dumps of it is evaluated
eagerly in the debug f-string — before any HTTP request is issued,
whatever status the BMC would have answered.  In particular on a 404 and
on a 200 the operation does not return normally, contrary to the claim,
the function's own docstring (404 errors are ignored) and the spec's
string-valued body. -/
theorem do_set_capping_typeerror :
    (∀ status, activate_capping status =
      Except.error "TypeError: Object of type set is not JSON serializable") ∧
    (∀ status, deactivate_capping status =
      Except.error "TypeError: Object of type set is not JSON serializable") ∧
    activate_capping 404 ≠ Except.ok () ∧
    activate_capping 200 ≠ Except.ok () ∧
    deactivate_capping 404 ≠ Except.ok () := by
  have ha : ∀ status, activate_capping status =
      Except.error "TypeError: Object of type set is not JSON serializable" :=
    fun _ => rfl
  have hd : ∀ status, deactivate_capping status =
      Except.error "TypeError: Object of type set is not JSON serializable" :=
    fun _ => rfl
  refine ⟨ha, hd, ?_, ?_, ?_⟩
  · rw [ha 404]
    intro h
    exact Except.noConfusion h
  · rw [ha 200]
    intro h
    exact Except.noConfusion h
  · rw [hd 404]
    intro h
    exact Except.noConfusion h

/-- Claim C10: for every accepted POST /firestarter body, the launcher
reads runtime_secs, pct_load and n_threads with defaults 30, 100 and 0
when absent, spawns the subprocess with command line
path --quiet --timeout R --load P --threads N with stdout discarded; a
body using any other key name, e.g. load_pct, is silently ignored in
favour of the default. -/
theorem launch_firestarter_args (path : String) (args : List (String × Int)) :
    (launch_firestarter path args).stdout_devnull = true ∧
    (launch_firestarter path args).command_line =
      path ++ " --quiet --timeout " ++ toString (dictGetD args "runtime_secs" 30) ++
        " --load " ++ toString (dictGetD args "pct_load" 100) ++
        " --threads " ++ toString (dictGetD args "n_threads" 0) ∧
    (∀ (k : String) (d : Int), dictGet args k = none → dictGetD args k d = d) ∧
    (launch_firestarter "fs" [("load_pct", 50)]).command_line =
      "fs --quiet --timeout 30 --load 100 --threads 0" := by
  refine ⟨rfl, rfl, ?_, ?_⟩
  · intro k d h
    simp [dictGetD, h]
  · rfl

/-- Witness for C10: a body that spells the load key load_pct has it
ignored; the default 100 is used. -/
theorem launch_firestarter_args_witness :
    dictGetD [(("load_pct" : String), (50 : Int))] "pct_load" 100 = 100 :=
  (launch_firestarter_args "fs" [("load_pct", 50)]).2.2.1 "pct_load" 100 (by decide)

/-- Claim C4: a POST /firestarter finding a live load-generator job gets
409 with the error object and spawns nothing (state untouched); otherwise
the handler joins any completed handle, spawns exactly one job and answers
202 with an empty body, the new job still running on return.  Hence of two
POSTs the first of which finds no live generator — the scenario in which a
generator is active between the two — exactly the first gets 202 and the
second gets 409 with exactly one spawn, and once the active job has
completed the next POST gets 202 again. -/
theorem firestarter_single_flight (t : Option Bool) :
    (t = some true →
      firestarter t = { status := 409, body := some "Firestarter already running",
                        spawned := 0, joined := 0, thread_after := t }) ∧
    (t ≠ some true →
      (firestarter t).status = 202 ∧ (firestarter t).body = none ∧
        (firestarter t).spawned = 1 ∧ (firestarter t).thread_after = some true) ∧
    (t ≠ some true →
      (firestarter t).status = 202 ∧
        (firestarter (firestarter t).thread_after).status = 409 ∧
        (firestarter (firestarter t).thread_after).spawned = 0 ∧
        (firestarter t).spawned + (firestarter (firestarter t).thread_after).spawned = 1) ∧
    (firestarter (some false)).status = 202 ∧
    (firestarter (some false)).joined = 1 := by
  rcases t with _ | b
  · refine ⟨by simp, fun _ => by simp [firestarter], fun _ => by simp [firestarter], rfl, rfl⟩
  · cases b
    · refine ⟨by simp, fun _ => by simp [firestarter], fun _ => by simp [firestarter], rfl, rfl⟩
    · exact ⟨fun _ => rfl, fun h => absurd rfl h, fun h => absurd rfl h, rfl, rfl⟩

/-- Witness for C4: from an idle agent, the first POST gets 202, a second
POST issued while the spawned job is alive gets 409, and one job in total
was spawned. -/
theorem firestarter_single_flight_witness :
    (firestarter none).status = 202 ∧
      (firestarter (firestarter none).thread_after).status = 409 ∧
      (firestarter (firestarter none).thread_after).spawned = 0 ∧
      (firestarter none).spawned + (firestarter (firestarter none).thread_after).spawned = 1 :=
  (firestarter_single_flight none).2.2.1 (by decide)

/-- Counterexample to claim C5: the line "Time: 12:30", whose value holds
a ':', is not kept keyed on the text before the first ':' — it is dropped
altogether, because the source splits on every ':' and discards lines not
yielding exactly two parts. -/
theorem ipmi_colon_value_dropped_cex :
    bmc_dict "Time: 12:30" "Time" = none ∧
      ¬ bmc_dict "Time: 12:30" "Time" = some "12:30" := by
  refine ⟨by decide, by decide⟩

/-- Claim C5 as amended: run_ipmi_command splits each stdout line on every
':' and keeps only the lines yielding exactly two parts, trimmed, so a
line whose value itself contains a ':' is dropped; on duplicate keys the
last occurrence wins. -/
theorem ipmi_field_parse :
    (∀ (pairs : List (String × String)) k v, dictGet (pairs ++ [(k, v)]) k = some v) ∧
    (∀ line, (pySplit ':' line).length ≠ 2 → parse_ipmi_line line = none) ∧
    bmc_dict "Instantaneous power reading    :   300 Watts"
      "Instantaneous power reading" = some "300 Watts" ∧
    bmc_dict "A: 1\nA: 2" "A" = some "2" ∧
    bmc_dict "Time: 12:30" "Time" = none := by
  refine ⟨?_, ?_, by decide, by decide, by decide⟩
  · intro pairs k v
    simp [dictGet, List.reverse_append, List.lookup]
  · intro line h
    unfold parse_ipmi_line
    rcases hs : pySplit ':' line with _ | ⟨a, _ | ⟨b, _ | _⟩⟩ <;> simp_all

/-- Witness for C5 (amended): a line with no colon at all is dropped, and
of two lines sharing the key A the later value is kept. -/
theorem ipmi_field_parse_witness :
    parse_ipmi_line "Power Limit" = none ∧
      dictGet ([(("A" : String), ("1" : String))] ++ [("A", "2")]) "A" = some "2" :=
  ⟨ipmi_field_parse.2.1 "Power Limit" (by decide),
   ipmi_field_parse.1 [("A", "1")] "A" "2"⟩

/-- The continuous-load loop visits cap, cap − d, …, cap − (n−1)·d. -/
theorem continuous_loop_eq (cap_delta : Int) :
    ∀ (n : Nat) (cap : Int),
      continuous_loop cap cap_delta n =
        (List.range n).map (fun (k : Nat) => cap - (k : Int) * cap_delta) := by
  intro n
  induction n with
  | zero => intro cap; rfl
  | succ n ih =>
    intro cap
    rw [continuous_loop, ih (cap - cap_delta), List.range_succ_eq_map, List.map_cons,
      List.map_map]
    refine congrArg₂ _ (by simp) (List.map_congr_left ?_)
    intro k _
    simp only [Function.comp_apply, Nat.succ_eq_add_one]
    push_cast
    ring

/-- The pause-between loop equals the continuous loop started one step
lower: it decrements before logging. -/
theorem pause_mode_loop_eq_continuous (cap_delta : Int) :
    ∀ (n : Nat) (cap : Int),
      pause_mode_loop cap cap_delta n = continuous_loop (cap - cap_delta) cap_delta n := by
  intro n
  induction n with
  | zero => intro cap; rfl
  | succ n ih =>
    intro cap
    rw [pause_mode_loop, continuous_loop, ih (cap - cap_delta)]

/-- Claim C8: with step = (cap_from − cap_to) // n_steps (Python floor
division), run_test logs and applies, in pause-between mode, cap_from,
cap_from − step, …, cap_from − n_steps·step (n_steps + 1 values, ending at
cap_to when n_steps divides cap_from − cap_to), and in continuous-load
mode uncapped_power, cap_from, …, cap_from − (n_steps − 1)·step (n_steps +
1 values); in particular cap_from = 1000, cap_to = 400, n_steps = 3 in
continuous mode yields [uncapped, 1000, 800, 600]. -/
theorem run_test_cap_sequence (uncapped cap_from cap_to : Int) (n_steps : Nat)
    (h : 1 ≤ n_steps) :
    run_test_caps true uncapped cap_from cap_to n_steps =
      (List.range (n_steps + 1)).map
        (fun (k : Nat) => cap_from - (k : Int) * Int.fdiv (cap_from - cap_to) (n_steps : Int)) ∧
    run_test_caps false uncapped cap_from cap_to n_steps =
      uncapped :: (List.range n_steps).map
        (fun (k : Nat) => cap_from - (k : Int) * Int.fdiv (cap_from - cap_to) (n_steps : Int)) ∧
    (run_test_caps true uncapped cap_from cap_to n_steps).length = n_steps + 1 ∧
    (run_test_caps false uncapped cap_from cap_to n_steps).length = n_steps + 1 ∧
    ((n_steps : Int) ∣ (cap_from - cap_to) →
      (run_test_caps true uncapped cap_from cap_to n_steps).getLast? = some cap_to) ∧
    run_test_caps false uncapped 1000 400 3 = [uncapped, 1000, 800, 600] := by
  have hpause : run_test_caps true uncapped cap_from cap_to n_steps =
      (List.range (n_steps + 1)).map
        (fun (k : Nat) => cap_from - (k : Int) * Int.fdiv (cap_from - cap_to) (n_steps : Int)) := by
    have hunfold : run_test_caps true uncapped cap_from cap_to n_steps =
        cap_from :: pause_mode_loop cap_from
          (Int.fdiv (cap_from - cap_to) (n_steps : Int)) n_steps := rfl
    rw [hunfold, pause_mode_loop_eq_continuous, continuous_loop_eq, List.range_succ_eq_map,
      List.map_cons, List.map_map]
    refine congrArg₂ _ (by simp) (List.map_congr_left ?_)
    intro k _
    simp only [Function.comp_apply, Nat.succ_eq_add_one]
    push_cast
    ring
  have hcont : run_test_caps false uncapped cap_from cap_to n_steps =
      uncapped :: (List.range n_steps).map
        (fun (k : Nat) => cap_from - (k : Int) * Int.fdiv (cap_from - cap_to) (n_steps : Int)) := by
    have hunfold : run_test_caps false uncapped cap_from cap_to n_steps =
        uncapped :: continuous_loop cap_from
          (Int.fdiv (cap_from - cap_to) (n_steps : Int)) n_steps := rfl
    rw [hunfold, continuous_loop_eq]
  refine ⟨hpause, hcont, ?_, ?_, ?_, ?_⟩
  · rw [hpause]; simp
  · rw [hcont]; simp
  · intro hdvd
    rw [hpause]
    have hr : List.range (n_steps + 1) = List.range n_steps ++ [n_steps] := by
      simpa using List.range_succ (n := n_steps)
    rw [hr, List.map_append, List.map_singleton, List.getLast?_concat]
    have h0 : (0 : Int) ≤ (n_steps : Int) := by positivity
    have hmul : (n_steps : Int) * Int.fdiv (cap_from - cap_to) (n_steps : Int) =
        cap_from - cap_to := by
      rw [Int.fdiv_eq_ediv _ h0, Int.mul_ediv_cancel' hdvd]
    rw [hmul]
    simp only [Option.some.injEq]
    omega
  · have hd : Int.fdiv ((1000 : Int) - 400) (3 : Int) = 200 := by decide
    have hunfold : run_test_caps false uncapped 1000 400 3 =
        uncapped :: continuous_loop 1000 (Int.fdiv ((1000 : Int) - 400) (3 : Int)) 3 := rfl
    rw [hunfold, hd]
    norm_num [continuous_loop]

/-- Witness for C8: n_steps = 3 ≥ 1 and the S1 trajectory evaluates to
[uncapped, 1000, 800, 600] with uncapped = 1400. -/
theorem run_test_cap_sequence_witness :
    1 ≤ 3 ∧ run_test_caps false 1400 1000 400 3 = [1400, 1000, 800, 600] :=
  ⟨by decide, (run_test_cap_sequence 1400 1000 400 3 (by decide)).2.2.2.2.2⟩

/-- Elimination for a successful collector iteration: the time slept, the
rebased next tick, the appended bmc row and the timestamps of the appended
rapl rows. -/
theorem collect_iteration_ok_elim {freq : ℚ} {st : CollectState} {env : TickEnv}
    {st1 : CollectState} {slept : ℚ}
    (h : collect_iteration freq st env = Except.ok (st1, slept)) :
    slept = (if st.next_collect_timestamp - env.now > 0
             then st.next_collect_timestamp - env.now else 0) ∧
    st1.next_collect_timestamp = env.now + 1 / freq ∧
    st1.bmc_rows = st.bmc_rows ++ [save_bmc_sample env.now env.bmc] ∧
    ∃ rapl_new, st1.rapl_rows = st.rapl_rows ++ rapl_new ∧
      ∀ r ∈ rapl_new, RaplRow.timestamp r = env.now := by
  rcases hsa : sample_agent env.agent_status env.agent_body with _ | m
  · rw [collect_iteration, hsa] at h
    simp [save_sample, save_agent_sample] at h
  · rw [collect_iteration, hsa] at h
    simp only [save_sample, save_agent_sample, Except.ok.injEq, Prod.mk.injEq] at h
    obtain ⟨hst, hsl⟩ := h
    subst hst
    refine ⟨hsl.symm, rfl, rfl, ?_⟩
    refine ⟨m.map (fun pw => { timestamp := env.now, package := pw.1, power := pw.2 }),
      rfl, ?_⟩
    intro r hr
    rcases List.mem_map.mp hr with ⟨pw, _, hpw⟩
    rw [← hpw]

/-- Claim C3: each collector iteration, taken while the stop flag is
unset, reads now, suspends for next_tick − now only when next_tick > now,
rebases next_tick to now + 1/freq, samples, and commits rows stamped with
that now; consequently when an iteration's sampling takes d > 1/freq, the
next iteration suspends for 0 (fires immediately) and rebases next_tick on
its own fresh now, so no catch-up ticks accumulate. -/
theorem collector_schedule (freq : ℚ) (st : CollectState) (env : TickEnv)
    (st1 : CollectState) (slept : ℚ) (hfreq : 0 < freq)
    (hrun : collect_iteration freq st env = Except.ok (st1, slept)) :
    slept = (if st.next_collect_timestamp - env.now > 0
             then st.next_collect_timestamp - env.now else 0) ∧
    st1.next_collect_timestamp = env.now + 1 / freq ∧
    st1.bmc_rows = st.bmc_rows ++ [save_bmc_sample env.now env.bmc] ∧
    (∀ r ∈ st1.rapl_rows, r ∈ st.rapl_rows ∨ RaplRow.timestamp r = env.now) ∧
    (∀ d env2 st2 slept2, 1 / freq < d → TickEnv.now env2 = env.now + slept + d →
      collect_iteration freq st1 env2 = Except.ok (st2, slept2) →
      slept2 = 0 ∧ st2.next_collect_timestamp = TickEnv.now env2 + 1 / freq) ∧
    (∀ rest, start_collect freq st ((false, env) :: rest) = start_collect freq st1 rest) ∧
    (∀ rest, start_collect freq st ((true, env) :: rest) = Except.ok st) := by
  obtain ⟨hslept, hnext, hbmc, rapl_new, hrapl, htimes⟩ := collect_iteration_ok_elim hrun
  have hslept_nonneg : 0 ≤ slept := by
    rw [hslept]
    split <;> linarith
  refine ⟨hslept, hnext, hbmc, ?_, ?_, ?_, ?_⟩
  · intro r hr
    rw [hrapl] at hr
    rcases List.mem_append.mp hr with h1 | h2
    · exact Or.inl h1
    · exact Or.inr (htimes r h2)
  · intro d env2 st2 slept2 hd hnow2 hrun2
    obtain ⟨hslept2, hnext2, _, _⟩ := collect_iteration_ok_elim hrun2
    refine ⟨?_, hnext2⟩
    rw [hslept2, hnext, hnow2, if_neg]
    simp only [not_lt]
    linarith
  · intro rest
    simp [start_collect, hrun]
  · intro rest
    simp [start_collect]

/-- Witness for C3: from next_tick = now = 10 at freq 1, the iteration on
the healthy tick envW succeeds, sleeps 0, and schedules the next tick at
10 + 1. -/
theorem collector_schedule_witness :
    (0 : ℚ) < 1 ∧
      collect_iteration 1 stW envW = Except.ok (stW1, sleptW) ∧
      stW1.next_collect_timestamp = TickEnv.now envW + 1 / 1 ∧
      sleptW = 0 := by
  have hrun : collect_iteration 1 stW envW = Except.ok (stW1, sleptW) := rfl
  refine ⟨by norm_num, hrun,
    (collector_schedule 1 stW envW stW1 sleptW (by norm_num) hrun).2.1, ?_⟩
  rw [sleptW, if_neg]
  norm_num

/-- Claim C6 (evaluated at the failing input): when the agent answers
/rapl_power with HTTP 500, sample_agent logs the failure and returns None,
but save_agent_sample then calls items() on None and raises
AttributeError; nothing in start_collect catches it, so the error
propagates and the loop terminates instead of skipping the tick and
continuing — the next tick, though its stop flag is still unset, is never
taken. -/
theorem collector_error_terminates_loop :
    sample_agent 500 [] = none ∧
    save_agent_sample 10 (sample_agent 500 []) =
      Except.error "AttributeError: NoneType object has no attribute items" ∧
    start_collect 1 stW [(false, env500), (false, envOK)] =
      Except.error "AttributeError: NoneType object has no attribute items" ∧
    start_collect 1 stW [(false, envW), (false, envOK)] =
      Except.ok
        { next_collect_timestamp := TickEnv.now envOK + 1 / 1
          bmc_rows := [{ timestamp := 10, power := 300, cap_level := some 500 },
                       { timestamp := 11, power := 300, cap_level := none }]
          rapl_rows := [{ timestamp := 10, package := "pkg0", power := 42 },
                        { timestamp := 11, package := "pkg0", power := 42 }] } :=
  ⟨rfl, rfl, rfl, rfl⟩

/-- A file missing from the modelled filesystem contributes no entry to a
filterMap over file names, whatever the file list. -/
theorem filterMap_lookup_missing (fs : String → Option String) (f : String)
    (hf : fs f = none) :
    ∀ l : List String,
      (l.filterMap (fun g => (fs g).map (fun c => (g, SIValue.s (pyStrip c))))).lookup f
        = none := by
  intro l
  induction l with
  | nil => rfl
  | cons g rest ih =>
    simp only [List.filterMap_cons]
    rcases hg : fs g with _ | c
    · simpa using ih
    · by_cases hfg : f = g
      · subst hfg
        rw [hf] at hg
        cases hg
      · have hbeq : (f == g) = false := by simpa using hfg
        simp only [List.lookup, hbeq]
        exact ih

set_option maxRecDepth 100000 in
/-- Counterexample to claim C9: on the lscpu output lscpuEx, whose CPU MHz
field reads 2400.000, cpu_info maps cpu_mhz to 0 (the parse failure
default), yet the returned system_info object does NOT contain cpu_mhz at
all — the aggregate keeps only truthy values, and 0 is falsy — refuting
"a numeric field that failed to parse is still present in the returned
object with value 0". -/
theorem system_info_zero_dropped_cex :
    (cpu_info lscpuEx).toOption.bind (fun d => d.lookup "cpu_mhz")
        = some (SIValue.i 0) ∧
      (system_info fsEx lscpuEx "host1\n" osEx).toOption.bind
          (fun d => d.lookup "cpu_mhz") = none := by
  refine ⟨by decide, by decide⟩

set_option maxRecDepth 100000 in
/-- Claim C9 as amended: the aggregate omits the key of every missing DMI
file, and cpu_info does default unparsable numeric CPU fields to 0; but
system_info then filters the aggregate by Python truthiness, so every
returned value is truthy and a numeric field that failed to parse (value
0) is dropped from the returned object rather than kept. -/
theorem system_info_filtering :
    (∀ (fs : String → Option String) (f : String),
      fs f = none → (hw_info fs).lookup f = none) ∧
    (∀ (fs : String → Option String) (lscpu host os : String)
        (d : List (String × SIValue)),
      system_info fs lscpu host os = Except.ok d →
        ∀ kv ∈ d, truthy kv.2 = true) ∧
    to_int "2400.000" = 0 ∧
    (cpu_info lscpuEx).toOption.bind (fun dd => dd.lookup "cpu_mhz")
      = some (SIValue.i 0) ∧
    (system_info fsEx lscpuEx "host1\n" osEx).toOption.bind
      (fun dd => dd.lookup "bios_date") = some (SIValue.s "01/01/2024") ∧
    (system_info fsEx lscpuEx "host1\n" osEx).toOption.bind
      (fun dd => dd.lookup "bios_version") = none ∧
    (system_info fsEx lscpuEx "host1\n" osEx).toOption.bind
      (fun dd => dd.lookup "os_name") = some (SIValue.s "Foo OS 1") := by
  refine ⟨?_, ?_, by decide, by decide, by decide, by decide, by decide⟩
  · intro fs f hf
    exact filterMap_lookup_missing fs f hf dmi_files
  · intro fs lscpu host os d h
    rcases hc : cpu_info lscpu with e | cpu
    · rw [system_info, hc] at h
      cases h
    · rw [system_info, hc] at h
      simp only [Except.map, Except.ok.injEq] at h
      subst h
      intro kv hkv
      exact (List.mem_filter.mp hkv).2

/-- Witness for C9 (amended): board_name is missing from the concrete DMI
filesystem fsEx, so hw_info omits it. -/
theorem system_info_filtering_witness :
    (hw_info fsEx).lookup "board_name" = none :=
  system_info_filtering.1 fsEx "board_name" (by decide)

end PowerCapping
